import Mathlib

/-!
Shallow embedding of `controllers/kubevirtmachine_controller.go` from
cluster-api-provider-kubevirt.  External collaborators (the control-plane
API client, the VM handle, the SSH key manager, the patch helpers) are
modelled by a `World` record of observations; each reconcile function is a
pure Lean function from a `World` and the in-memory objects to an outcome
consisting of the controller result, an optional error, the final in-memory
`KubevirtMachine`, and a trace of external effects (reads, writes, VM
creation calls, patches).
-/

namespace CAPK

/-- Condition status, `corev1.ConditionStatus` restricted to the three values used. -/
inductive CondStatus
  | isTrue
  | isFalse
  | unknown
deriving DecidableEq, Repr

/-- The two condition types used by the machine controller. -/
inductive CondType
  | vmProvisioned
  | bootstrapExecSucceeded
deriving DecidableEq, Repr

/-- Condition severities used by the controller (`clusterv1.ConditionSeverity`). -/
inductive Severity
  | info
  | warning
  | none
deriving DecidableEq, Repr

/-- A condition record as stored in `KubevirtMachine.Status.Conditions`. -/
structure Condition where
  condType : CondType
  status : CondStatus
  reason : String
  severity : Severity
  message : String
deriving DecidableEq, Repr

/-- A machine address entry (`clusterv1.MachineAddress`). -/
inductive AddrType
  | hostName
  | internalIP
  | externalIP
deriving DecidableEq, Repr

structure MachineAddress where
  addrType : AddrType
  address : String
deriving DecidableEq, Repr

/-- `infrav1.KubevirtMachineSpec`, the fields the controller touches. -/
structure KubevirtMachineSpec where
  providerID : Option String
  bootstrapped : Bool
deriving DecidableEq, Repr

/-- `infrav1.KubevirtMachineStatus`, the fields the controller touches. -/
structure KubevirtMachineStatus where
  ready : Bool
  addresses : List MachineAddress
  conditions : List Condition
deriving DecidableEq, Repr

/-- The `infrav1.KubevirtMachine` object: metadata fields the controller
reads plus spec and status. `deletionTimestamp = none` models
`DeletionTimestamp.IsZero()`. -/
structure KubevirtMachine where
  name : String
  namespaceName : String
  finalizers : List String
  deletionTimestamp : Option Nat
  spec : KubevirtMachineSpec
  status : KubevirtMachineStatus
deriving DecidableEq, Repr

/-- `infrav1.MachineFinalizer`. -/
def machineFinalizer : String := "kubevirtmachine.infrastructure.cluster.x-k8s.io"

/-- The owning logical `clusterv1.Machine`: the fields the controller reads.
`dataSecretName` is `Spec.Bootstrap.DataSecretName`; `isControlPlane` is
`util.IsControlPlaneMachine` (presence of the control-plane label);
`infrastructureRefName` is `Spec.InfrastructureRef.Name`. -/
structure Machine where
  name : String
  namespaceName : String
  dataSecretName : Option String
  isControlPlane : Bool
  infrastructureRefName : String
deriving DecidableEq, Repr

/-- The logical `clusterv1.Cluster`: the fields the controller reads.
`controlPlaneInitialized` is `conditions.IsTrue(cluster,
clusterv1.ControlPlaneInitializedCondition)`. -/
structure Cluster where
  name : String
  infrastructureRefName : String
  infrastructureReady : Bool
  controlPlaneInitialized : Bool
deriving DecidableEq, Repr

/-- The `infrav1.KubevirtCluster` infrastructure object. -/
structure KubevirtCluster where
  name : String
  namespaceName : String
deriving DecidableEq, Repr

/-- A secret: name plus string-keyed payload (`Data`). -/
structure Secret where
  name : String
  data : List (String × String)
deriving DecidableEq, Repr

/-- Error kind of a client `Get`: `apierrors.IsNotFound` is distinguishable. -/
inductive GetErr
  | notFound
  | other (msg : String)
deriving DecidableEq, Repr

/-- Errors a reconciliation can return, one constructor per `return err` site. -/
inductive RErr
  | getKubevirtMachineErr (e : GetErr)
  | getOwnerMachineErr (e : GetErr)
  | getClusterErr (e : GetErr)
  | newPatchHelperErr
  | deferredPatchErr
  | fetchSshKeysErr
  | bootstrapDataNilErr
  | genericSecretGetErr (e : GetErr)
  | valueKeyMissingErr
  | createSecretErr
  | newMachineErr
  | vmCreateErr
  | normalPatchHelperErr
  | midPatchErr
  | deletePatchHelperErr
  | deletePatchErr
deriving DecidableEq, Repr

/-- `ctrl.Result`: `requeueAfter` in seconds, `0` meaning no requeue. -/
structure RResult where
  requeueAfter : Nat
deriving DecidableEq, Repr

def emptyResult : RResult := { requeueAfter := 0 }

/-- Trace of externally visible calls made during one reconciliation.
`patchMachine s ok` is an immediate patch of snapshot `s` (`ok` = persisted);
`finalPatch s ok` is the deferred status patch installed at entry. -/
inductive Effect
  | readKubevirtMachine
  | readOwnerMachine
  | readCluster
  | readKubevirtCluster
  | readSecret (name : String)
  | writeSecret (name : String)
  | checkSshKeysPersisted
  | fetchSshKeys
  | checkVMExists
  | createVM (name : String)
  | sshProbeBoot
  | sshProbeBootstrap
  | buildWorkloadClient
  | setProviderIDCall
  | patchMachine (snapshot : KubevirtMachine) (ok : Bool)
  | finalPatch (snapshot : KubevirtMachine) (ok : Bool)
deriving DecidableEq, Repr

/-- All observations of the external world one reconciliation can make.
Each field corresponds to one collaborator call site in the Go source. -/
structure World where
  getKubevirtMachine : Except GetErr KubevirtMachine
  getOwnerMachine : Except GetErr (Option Machine)
  getCluster : Except GetErr (Option Cluster)
  getKubevirtCluster : Except GetErr KubevirtCluster
  newPatchHelperOk : Bool
  deferredPatchOk : Bool
  sshKeysPersisted : Bool
  fetchSshKeysOk : Bool
  sshPublicKey : String
  sshPrivateKey : String
  getDerivedBootstrapSecret : Except GetErr Secret
  getGenericBootstrapSecret : Except GetErr Secret
  createOrUpdateSecretOk : Bool
  newMachineOk : Bool
  vmExists : Bool
  vmCreateOk : Bool
  vmAddress : String
  vmIsBooted : Bool
  vmIsBootstrapped : Bool
  normalPatchHelperOk : Bool
  midPatchOk : Bool
  deletePatchHelperOk : Bool
  deletePatchOk : Bool
  workloadClientOk : Bool
  setProviderIDResult : Except String String
deriving Repr

/-- Condition reason strings used by the controller. -/
def waitingForClusterInfrastructureReason : String := "WaitingForClusterInfrastructure"

def waitingForControlPlaneAvailableReason : String := "WaitingForControlPlaneAvailable"

def waitingForBootstrapDataReason : String := "WaitingForBootstrapData"

def bootstrappingReason : String := "Bootstrapping"

def bootstrapFailedReason : String := "BootstrapFailed"

def deletingReason : String := "Deleting"

/-- `conditions.Set`: replace the condition of the same type, else append. -/
def setCondition (cs : List Condition) (c : Condition) : List Condition :=
  if cs.any (fun x => x.condType == c.condType) then
    cs.map (fun x => if x.condType == c.condType then c else x)
  else
    cs ++ [c]

/-- Replace the machine's condition list. -/
def withConditions (m : KubevirtMachine) (cs : List Condition) : KubevirtMachine :=
  { m with status := { m.status with conditions := cs } }

/-- `conditions.MarkTrue`. -/
def markTrue (m : KubevirtMachine) (t : CondType) : KubevirtMachine :=
  let c : Condition := { condType := t, status := .isTrue, reason := "", severity := .none, message := "" }
  withConditions m (setCondition m.status.conditions c)

/-- `conditions.MarkFalse`. -/
def markFalse (m : KubevirtMachine) (t : CondType) (reason : String) (sev : Severity)
    (msg : String) : KubevirtMachine :=
  let c : Condition := { condType := t, status := .isFalse, reason := reason, severity := sev, message := msg }
  withConditions m (setCondition m.status.conditions c)

/-- `conditions.Has`. -/
def hasCondition (m : KubevirtMachine) (t : CondType) : Bool :=
  m.status.conditions.any (fun x => x.condType == t)

/-- `conditions.Get`, first condition of the given type. -/
def getCondition (m : KubevirtMachine) (t : CondType) : Option Condition :=
  m.status.conditions.find? (fun x => x.condType == t)

/-- `controllerutil.ContainsFinalizer`. -/
def containsFinalizer (m : KubevirtMachine) (f : String) : Bool :=
  m.finalizers.any (fun x => x == f)

/-- `controllerutil.AddFinalizer` (append if absent). -/
def addFinalizer (m : KubevirtMachine) (f : String) : KubevirtMachine :=
  if containsFinalizer m f then m else { m with finalizers := m.finalizers ++ [f] }

/-- `controllerutil.RemoveFinalizer`. -/
def removeFinalizer (m : KubevirtMachine) (f : String) : KubevirtMachine :=
  { m with finalizers := m.finalizers.filter (fun x => x != f) }

/-- Outcome of one reconcile body or branch: controller result, optional
error, final in-memory `KubevirtMachine`, external effect trace. -/
structure Outcome where
  result : RResult
  error : Option RErr
  machine : KubevirtMachine
  effects : List Effect
deriving DecidableEq, Repr

/-- Set `Status.Ready`. -/
def setReady (m : KubevirtMachine) (b : Bool) : KubevirtMachine :=
  { m with status := { m.status with ready := b } }

/-- Set `Status.Addresses`. -/
def setAddresses (m : KubevirtMachine) (as : List MachineAddress) : KubevirtMachine :=
  { m with status := { m.status with addresses := as } }

/-- Set `Spec.Bootstrapped`. -/
def setBootstrapped (m : KubevirtMachine) (b : Bool) : KubevirtMachine :=
  { m with spec := { m.spec with bootstrapped := b } }

/-- Set `Spec.ProviderID`. -/
def setProviderIDField (m : KubevirtMachine) (p : Option String) : KubevirtMachine :=
  { m with spec := { m.spec with providerID := p } }

/-- `reconcileKubevirtBootstrapSecret` (lines 395-460): error if the linked
Machine has no `dataSecretName`; exit early with success if the derived
`<dataSecretName>-userdata` secret already exists; else fetch the generic
bootstrap secret, require its `value` key, and create/update the derived
secret (the nested `CreateOrUpdate` pair is modelled as one write call). -/
def reconcileKubevirtBootstrapSecret (w : World) (machine : Machine) :
    Option RErr × List Effect :=
  match machine.dataSecretName with
  | none => (some .bootstrapDataNilErr, [])
  | some n =>
    match w.getDerivedBootstrapSecret with
    | .ok _ => (none, [.readSecret (n ++ "-userdata")])
    | .error _ =>
      match w.getGenericBootstrapSecret with
      | .error e =>
        (some (.genericSecretGetErr e), [.readSecret (n ++ "-userdata"), .readSecret n])
      | .ok s =>
        match s.data.lookup "value" with
        | none =>
          (some .valueKeyMissingErr, [.readSecret (n ++ "-userdata"), .readSecret n])
        | some _ =>
          if w.createOrUpdateSecretOk then
            (none,
              [.readSecret (n ++ "-userdata"), .readSecret n, .writeSecret (n ++ "-userdata")])
          else
            (some .createSecretErr,
              [.readSecret (n ++ "-userdata"), .readSecret n, .writeSecret (n ++ "-userdata")])

/-- `reconcileDelete` (lines 313-329): create a patch helper, mark
`VMProvisioned=False/Deleting`, issue an immediate patch (error on failure,
finalizer untouched), then remove the finalizer. -/
def reconcileDelete (w : World) (m : KubevirtMachine) : Outcome :=
  if !w.deletePatchHelperOk then
    { result := emptyResult, error := some .deletePatchHelperErr, machine := m, effects := [] }
  else
    let m1 := markFalse m .vmProvisioned deletingReason .info ""
    if !w.deletePatchOk then
      { result := emptyResult, error := some .deletePatchErr, machine := m1,
        effects := [.patchMachine m1 false] }
    else
      { result := emptyResult, error := none,
        machine := removeFinalizer m1 machineFinalizer,
        effects := [.patchMachine m1 true] }

/-- Tail of `reconcileNormal` from the bootstrap probe on (lines 254-311).
`m2` is the in-memory machine at line 254 (its `spec.bootstrapped` is the
entry value: condition marks never touch the spec); `effs` are the effects
accumulated so far. -/
def reconcileNormalFromBootstrap (w : World) (m2 : KubevirtMachine)
    (effs : List Effect) : Outcome :=
  -- Wait for VM to bootstrap with Kubernetes (lines 255-263)
  if !m2.spec.bootstrapped && !w.vmIsBootstrapped then
    { result := { requeueAfter := 10 }, error := none,
      machine := markFalse m2 .bootstrapExecSucceeded bootstrapFailedReason .warning
        "VM not bootstrapped yet",
      effects := effs ++ [.sshProbeBootstrap] }
  else
  let m3 := if m2.spec.bootstrapped then m2 else setBootstrapped m2 true
  let effs4 := effs ++ (if m2.spec.bootstrapped then [] else [Effect.sshProbeBootstrap])
  -- Mark BootstrapExecSucceeded, populate addresses (lines 266-281)
  let m4 := setAddresses (markTrue m3 .bootstrapExecSucceeded)
    [{ addrType := .hostName, address := m2.name },
     { addrType := .internalIP, address := w.vmAddress },
     { addrType := .externalIP, address := w.vmAddress }]
  -- Build the workload cluster client (lines 288-296)
  if !w.workloadClientOk then
    { result := { requeueAfter := 10 }, error := none, machine := m4,
      effects := effs4 ++ [.buildWorkloadClient] }
  else
  -- Patch node with provider id (lines 298-308)
  match w.setProviderIDResult with
  | .error _ =>
    { result := { requeueAfter := 5 }, error := none, machine := m4,
      effects := effs4 ++ [.buildWorkloadClient, .setProviderIDCall] }
  | .ok pid =>
    { result := emptyResult, error := none,
      machine := markTrue (setReady (setProviderIDField m4 (some pid)) true) .vmProvisioned,
      effects := effs4 ++ [.buildWorkloadClient, .setProviderIDCall] }

/-- Middle of `reconcileNormal` once the VM has booted (lines 237-252):
patch helper for early visibility, `MarkTrue(VMProvisioned)`, initialization
of `BootstrapExecSucceeded` with an immediate patch, then the tail. -/
def reconcileNormalAfterBoot (w : World) (m : KubevirtMachine)
    (effs : List Effect) : Outcome :=
  if !w.normalPatchHelperOk then
    { result := emptyResult, error := some .normalPatchHelperErr, machine := m, effects := effs }
  else
  let m1 := markTrue m .vmProvisioned
  if hasCondition m1 .bootstrapExecSucceeded then
    reconcileNormalFromBootstrap w m1 effs
  else
  let m2 := markFalse m1 .bootstrapExecSucceeded bootstrappingReason .info ""
  if !w.midPatchOk then
    { result := emptyResult, error := some .midPatchErr, machine := m2,
      effects := effs ++ [.patchMachine m2 false] }
  else
    reconcileNormalFromBootstrap w m2 (effs ++ [.patchMachine m2 true])

/-- `reconcileNormal` (lines 162-311), translated stage by stage. -/
def reconcileNormal (w : World) (cluster : Cluster) (machine : Machine)
    (m : KubevirtMachine) : Outcome :=
  -- If the machine is already provisioned, return (lines 164-170)
  if m.spec.providerID.isSome then
    { result := emptyResult, error := none,
      machine := markTrue (setReady m true) .vmProvisioned, effects := [] }
  else
  -- Make sure bootstrap data is available and populated (lines 173-183)
  match machine.dataSecretName with
  | none =>
    if !machine.isControlPlane && !cluster.controlPlaneInitialized then
      { result := emptyResult, error := none,
        machine := markFalse m .vmProvisioned waitingForControlPlaneAvailableReason .info "",
        effects := [] }
    else
      { result := emptyResult, error := none,
        machine := markFalse m .vmProvisioned waitingForBootstrapDataReason .info "",
        effects := [] }
  | some _ =>
  -- Fetch SSH keys (lines 193-200)
  if !w.sshKeysPersisted then
    { result := { requeueAfter := 10 }, error := none, machine := m,
      effects := [.checkSshKeysPersisted] }
  else if !w.fetchSshKeysOk then
    { result := emptyResult, error := some .fetchSshKeysErr, machine := m,
      effects := [.checkSshKeysPersisted, .fetchSshKeys] }
  else
  -- Synthesize the bootstrap secret (lines 202-206)
  let bs := reconcileKubevirtBootstrapSecret w machine
  let effs0 := [Effect.checkSshKeysPersisted, Effect.fetchSshKeys] ++ bs.2
  if bs.1.isSome then
    { result := emptyResult, error := none,
      machine := markFalse m .vmProvisioned waitingForBootstrapDataReason .info "",
      effects := effs0 }
  else
  -- Create a helper for managing the KubeVirt VM (lines 209-212)
  if !w.newMachineOk then
    { result := emptyResult, error := some .newMachineErr, machine := m, effects := effs0 }
  else
  -- Provision the underlying VM if not existing (lines 215-220)
  let effs1 := effs0 ++ [Effect.checkVMExists] ++
    (if w.vmExists then [] else [Effect.createVM m.name])
  if !w.vmExists && !w.vmCreateOk then
    { result := emptyResult, error := some .vmCreateErr, machine := m, effects := effs1 }
  else
  -- Wait for VM to boot (lines 229-232)
  if !w.vmIsBooted then
    { result := { requeueAfter := 20 }, error := none, machine := m,
      effects := effs1 ++ [.sshProbeBoot] }
  else
    reconcileNormalAfterBoot w m (effs1 ++ [Effect.sshProbeBoot])

/-- The body of `Reconcile` below the deferred-patch installation
(lines 140-159): finalizer gate, infrastructure-ready gate, then the
delete or normal path. -/
def reconcileBody (w : World) (cluster : Cluster) (machine : Machine)
    (m : KubevirtMachine) : Outcome :=
  if !containsFinalizer m machineFinalizer then
    { result := emptyResult, error := none,
      machine := addFinalizer m machineFinalizer, effects := [] }
  else if !cluster.infrastructureReady then
    { result := emptyResult, error := none,
      machine := markFalse m .vmProvisioned waitingForClusterInfrastructureReason .info "",
      effects := [] }
  else if m.deletionTimestamp.isSome then
    reconcileDelete w m
  else
    reconcileNormal w cluster machine m

/-- Outcome of a full `Reconcile` call; `machine = none` when the
KubevirtMachine was never fetched successfully. -/
structure ReconcileOutcome where
  result : RResult
  error : Option RErr
  machine : Option KubevirtMachine
  effects : List Effect
deriving DecidableEq, Repr

/-- Error policy of the deferred patch (lines 131-138): a failure of the
deferred patch becomes the returned error only when the body produced no
error of its own; an earlier error is returned unchanged. -/
def deferredErr (patchOk : Bool) (bodyErr : Option RErr) : Option RErr :=
  if bodyErr.isSome then bodyErr
  else if patchOk then none else some .deferredPatchErr

/-- `Reconcile` (lines 64-160): the entry fetch sequence, patch-helper
initialization, the deferred status patch (applied once at return; its
failure becomes the returned error only when the body produced none), and
the body. -/
def Reconcile (w : World) : ReconcileOutcome :=
  -- Fetch the KubevirtMachine instance (lines 68-74)
  match w.getKubevirtMachine with
  | .error .notFound =>
    { result := emptyResult, error := none, machine := none,
      effects := [.readKubevirtMachine] }
  | .error e =>
    { result := emptyResult, error := some (.getKubevirtMachineErr e), machine := none,
      effects := [.readKubevirtMachine] }
  | .ok m =>
    -- Fetch the Machine (lines 77-84)
    match w.getOwnerMachine with
    | .error e =>
      { result := emptyResult, error := some (.getOwnerMachineErr e), machine := some m,
        effects := [.readKubevirtMachine, .readOwnerMachine] }
    | .ok none =>
      { result := emptyResult, error := none, machine := some m,
        effects := [.readKubevirtMachine, .readOwnerMachine] }
    | .ok (some machine) =>
      -- Fetch the Cluster (lines 89-97)
      match w.getCluster with
      | .error e =>
        { result := emptyResult, error := some (.getClusterErr e), machine := some m,
          effects := [.readKubevirtMachine, .readOwnerMachine, .readCluster] }
      | .ok none =>
        { result := emptyResult, error := none, machine := some m,
          effects := [.readKubevirtMachine, .readOwnerMachine, .readCluster] }
      | .ok (some cluster) =>
        -- Fetch the KubevirtCluster: any error means not available yet
        -- (lines 101-110)
        match w.getKubevirtCluster with
        | .error _ =>
          { result := emptyResult, error := none, machine := some m,
            effects := [.readKubevirtMachine, .readOwnerMachine, .readCluster,
              .readKubevirtCluster] }
        | .ok _ =>
          -- Initialize the patch helper (lines 125-128)
          if !w.newPatchHelperOk then
            { result := emptyResult, error := some .newPatchHelperErr, machine := some m,
              effects := [.readKubevirtMachine, .readOwnerMachine, .readCluster,
                .readKubevirtCluster] }
          else
            -- Deferred patch wraps the body (lines 131-138)
            let o := reconcileBody w cluster machine m
            let err := deferredErr w.deferredPatchOk o.error
            { result := o.result, error := err, machine := some o.machine,
              effects := [.readKubevirtMachine, .readOwnerMachine, .readCluster,
                .readKubevirtCluster] ++ o.effects ++ [.finalPatch o.machine w.deferredPatchOk] }

/-- A reconcile request identity (`ctrl.Request`). -/
structure Request where
  namespaceName : String
  name : String
deriving DecidableEq, Repr

/-- The `client.Object` argument of the cluster-to-machines index: either a
KubevirtCluster or some other object kind (its Go type name). -/
inductive ClientObject
  | isKubevirtCluster (c : KubevirtCluster)
  | otherObject (typeName : String)
deriving DecidableEq, Repr

/-- World of the index handler: owner-cluster lookup and machine listing. -/
structure IndexWorld where
  getOwnerCluster : Except GetErr (Option Cluster)
  listMachines : Except GetErr (List Machine)
deriving Repr

/-- A Go function result that may instead be a panic. -/
inductive PanicOr (α : Type)
  | panicked (msg : String)
  | returned (a : α)
deriving DecidableEq, Repr

/-- `KubevirtClusterToKubevirtMachines` (lines 363-392): panic unless the
object is a KubevirtCluster; owner-cluster not-found/nil/error gives the
empty result; list failure gives nil; else one request per listed Machine
with a non-empty infrastructure ref name. -/
def KubevirtClusterToKubevirtMachines (w : IndexWorld) (o : ClientObject) :
    PanicOr (List Request) :=
  match o with
  | .otherObject t => .panicked ("Expected a KubevirtCluster but got a " ++ t)
  | .isKubevirtCluster _ =>
    match w.getOwnerCluster with
    | .error _ => .returned []
    | .ok none => .returned []
    | .ok (some _) =>
      match w.listMachines with
      | .error _ => .returned []
      | .ok ms =>
        .returned (ms.filterMap (fun mi =>
          if mi.infrastructureRefName == "" then none
          else some { namespaceName := mi.namespaceName, name := mi.name }))

/-- `true` exactly on the deferred status patch event. -/
def isFinalPatch : Effect → Bool
  | .finalPatch _ _ => true
  | _ => false

/-- `true` exactly on VM creation calls. -/
def isCreateVM : Effect → Bool
  | .createVM _ => true
  | _ => false

/-- `true` exactly on secret write calls. -/
def isWriteSecret : Effect → Bool
  | .writeSecret _ => true
  | _ => false

/-- Concrete KubevirtMachine with no finalizer, fresh spec and status. -/
def kvm0 : KubevirtMachine :=
  { name := "m0", namespaceName := "ns", finalizers := [], deletionTimestamp := none,
    spec := { providerID := none, bootstrapped := false },
    status := { ready := false, addresses := [], conditions := [] } }

/-- `kvm0` with the finalizer present. -/
def kvmFin : KubevirtMachine := { kvm0 with finalizers := [machineFinalizer] }

/-- Concrete owning logical Machine with bootstrap data available. -/
def machine0 : Machine :=
  { name := "m0", namespaceName := "ns", dataSecretName := some "bs",
    isControlPlane := false, infrastructureRefName := "kvc" }

/-- Concrete logical Cluster with ready infrastructure. -/
def cluster0 : Cluster :=
  { name := "c0", infrastructureRefName := "kvc", infrastructureReady := true,
    controlPlaneInitialized := false }

/-- Concrete KubevirtCluster. -/
def kvc0 : KubevirtCluster := { name := "kvc", namespaceName := "ns" }

/-- Concrete generic bootstrap secret with a `value` payload. -/
def secret0 : Secret := { name := "bs", data := [("value", "cloudinit")] }

/-- A fully healthy world: every fetch succeeds, every collaborator call
works, the VM does not exist yet. -/
def world0 : World :=
  { getKubevirtMachine := .ok kvmFin, getOwnerMachine := .ok (some machine0),
    getCluster := .ok (some cluster0), getKubevirtCluster := .ok kvc0,
    newPatchHelperOk := true, deferredPatchOk := true,
    sshKeysPersisted := true, fetchSshKeysOk := true,
    sshPublicKey := "pub", sshPrivateKey := "priv",
    getDerivedBootstrapSecret := .error .notFound,
    getGenericBootstrapSecret := .ok secret0,
    createOrUpdateSecretOk := true, newMachineOk := true,
    vmExists := false, vmCreateOk := true, vmAddress := "10.0.0.1",
    vmIsBooted := true, vmIsBootstrapped := true,
    normalPatchHelperOk := true, midPatchOk := true,
    deletePatchHelperOk := true, deletePatchOk := true,
    workloadClientOk := true, setProviderIDResult := .ok "kubevirt://m0" }

/-- `kvmFin` with `providerID` already set (already provisioned). -/
def kvmProvisioned : KubevirtMachine :=
  { kvmFin with spec := { providerID := some "kubevirt://m0", bootstrapped := true } }

/-- `world0` observing the already provisioned machine. -/
def worldProvisioned : World := { world0 with getKubevirtMachine := .ok kvmProvisioned }

/-- Concrete derived per-machine bootstrap secret. -/
def secretDerived : Secret := { name := "bs-userdata", data := [("userdata", "cloudinit")] }

/-- `world0` where the derived bootstrap secret already exists. -/
def worldDerivedExists : World :=
  { world0 with getDerivedBootstrapSecret := .ok secretDerived }

/-- `world0` observing the machine with no finalizer yet. -/
def worldNoFinalizer : World := { world0 with getKubevirtMachine := .ok kvm0 }

/-- `machine0` without a bootstrap data secret reference. -/
def machineNoData : Machine := { machine0 with dataSecretName := none }

/-- `world0` where the cluster SSH keys are not persisted yet. -/
def worldNoSshKeys : World := { world0 with sshKeysPersisted := false }

/-- `kvmFin` with the sticky bootstrapped flag already set. -/
def kvmBootstrapped : KubevirtMachine :=
  { kvmFin with spec := { providerID := none, bootstrapped := true } }

/-- `world0` observing the bootstrapped machine. -/
def worldBootstrapped : World := { world0 with getKubevirtMachine := .ok kvmBootstrapped }

/-- `world0` where fetching the KubevirtCluster fails with a non-NotFound error. -/
def worldKvcErr : World := { world0 with getKubevirtCluster := .error (.other "boom") }

/-! ## Helper lemmas about the status and metadata helpers -/

theorem spec_withConditions (m : KubevirtMachine) (cs : List Condition) :
    (withConditions m cs).spec = m.spec := rfl

theorem spec_markTrue (m : KubevirtMachine) (t : CondType) : (markTrue m t).spec = m.spec := rfl

theorem spec_markFalse (m : KubevirtMachine) (t : CondType) (r : String) (sv : Severity)
    (msg : String) : (markFalse m t r sv msg).spec = m.spec := rfl

theorem spec_setReady (m : KubevirtMachine) (b : Bool) : (setReady m b).spec = m.spec := rfl

theorem spec_setAddresses (m : KubevirtMachine) (a : List MachineAddress) :
    (setAddresses m a).spec = m.spec := rfl

theorem bootstrapped_setProviderIDField (m : KubevirtMachine) (p : Option String) :
    (setProviderIDField m p).spec.bootstrapped = m.spec.bootstrapped := rfl

theorem bootstrapped_setBootstrapped (m : KubevirtMachine) (b : Bool) :
    (setBootstrapped m b).spec.bootstrapped = b := rfl

theorem containsFinalizer_markTrue (m : KubevirtMachine) (t : CondType) (f : String) :
    containsFinalizer (markTrue m t) f = containsFinalizer m f := rfl

theorem containsFinalizer_markFalse (m : KubevirtMachine) (t : CondType) (r : String)
    (sv : Severity) (msg : String) (f : String) :
    containsFinalizer (markFalse m t r sv msg) f = containsFinalizer m f := rfl

theorem containsFinalizer_removeFinalizer (m : KubevirtMachine) (f : String) :
    containsFinalizer (removeFinalizer m f) f = false := by
  unfold containsFinalizer removeFinalizer
  rw [List.any_eq_false]
  intro x hx
  rw [List.mem_filter] at hx
  simp only [bne_iff_ne, ne_eq] at hx
  simp [hx.2]

theorem containsFinalizer_addFinalizer (m : KubevirtMachine) (f : String) :
    containsFinalizer (addFinalizer m f) f = true := by
  unfold addFinalizer
  split
  case isTrue h => exact h
  case isFalse h =>
    unfold containsFinalizer
    rw [List.any_eq_true]
    exact ⟨f, by simp, by simp⟩

theorem find?_map_replace (cs : List Condition) (c : Condition)
    (h : cs.any (fun x => x.condType == c.condType) = true) :
    List.find? (fun x => x.condType == c.condType)
      (cs.map (fun x => if x.condType == c.condType then c else x)) = some c := by
  induction cs with
  | nil => simp at h
  | cons a as ih =>
    by_cases ha : (a.condType == c.condType) = true
    · simp [List.find?, ha]
    · have h' : as.any (fun x => x.condType == c.condType) = true := by
        simpa [List.any_cons, ha] using h
      simpa [List.find?, ha] using ih h'

theorem find?_setCondition (cs : List Condition) (c : Condition) :
    List.find? (fun x => x.condType == c.condType) (setCondition cs c) = some c := by
  unfold setCondition
  split
  case isTrue h => exact find?_map_replace cs c h
  case isFalse h =>
    rw [List.find?_append]
    have hnone : List.find? (fun x => x.condType == c.condType) cs = none := by
      rw [List.find?_eq_none]
      intro x hx hp
      exact h (List.any_eq_true.mpr ⟨x, hx, hp⟩)
    simp [hnone, List.find?]

theorem getCondition_markFalse (m : KubevirtMachine) (t : CondType) (r : String)
    (sv : Severity) (msg : String) :
    getCondition (markFalse m t r sv msg) t =
      some { condType := t, status := .isFalse, reason := r, severity := sv, message := msg } := by
  have h := find?_setCondition m.status.conditions
    { condType := t, status := .isFalse, reason := r, severity := sv, message := msg }
  simpa [getCondition, markFalse, withConditions] using h

theorem getCondition_markTrue (m : KubevirtMachine) (t : CondType) :
    getCondition (markTrue m t) t =
      some { condType := t, status := .isTrue, reason := "", severity := .none, message := "" } := by
  have h := find?_setCondition m.status.conditions
    { condType := t, status := .isTrue, reason := "", severity := .none, message := "" }
  simpa [getCondition, markTrue, withConditions] using h

theorem spec_addFinalizer (m : KubevirtMachine) (f : String) :
    (addFinalizer m f).spec = m.spec := by
  unfold addFinalizer
  split <;> rfl

theorem spec_removeFinalizer (m : KubevirtMachine) (f : String) :
    (removeFinalizer m f).spec = m.spec := rfl

/-! ## No effect of a given kind in a trace: combinators -/

theorem append_no_finalPatch {l1 l2 : List Effect}
    (h1 : ∀ e ∈ l1, isFinalPatch e = false) (h2 : ∀ e ∈ l2, isFinalPatch e = false) :
    ∀ e ∈ l1 ++ l2, isFinalPatch e = false := by
  intro e he
  rcases List.mem_append.mp he with h | h
  · exact h1 e h
  · exact h2 e h

theorem ite_no_finalPatch {c : Prop} [Decidable c] {l1 l2 : List Effect}
    (h1 : ∀ e ∈ l1, isFinalPatch e = false) (h2 : ∀ e ∈ l2, isFinalPatch e = false) :
    ∀ e ∈ (if c then l1 else l2), isFinalPatch e = false := by
  split
  · exact h1
  · exact h2

theorem nil_no_finalPatch : ∀ e ∈ ([] : List Effect), isFinalPatch e = false := by
  intro e he
  exact absurd he (List.not_mem_nil e)

theorem outcome_no_finalPatch (r : RResult) (err : Option RErr) (mm : KubevirtMachine)
    (l : List Effect) (h : ∀ e ∈ l, isFinalPatch e = false) :
    ∀ e ∈ (Outcome.mk r err mm l).effects, isFinalPatch e = false := h

/-! ## The deferred patch is never issued inside the body -/

theorem bootstrapSecret_no_finalPatch (w : World) (machine : Machine) :
    ∀ e ∈ (reconcileKubevirtBootstrapSecret w machine).2, isFinalPatch e = false := by
  intro e he
  simp only [reconcileKubevirtBootstrapSecret] at he
  repeat' split at he
  all_goals simp only [List.mem_append, List.mem_cons, List.mem_singleton,
    List.not_mem_nil, or_false, false_or] at he
  all_goals (try casesm* _ ∨ _)
  all_goals first
    | exact he.elim
    | (subst_vars; rfl)

theorem fromBootstrap_no_finalPatch (w : World) (m2 : KubevirtMachine) (effs : List Effect)
    (h : ∀ e ∈ effs, isFinalPatch e = false) :
    ∀ e ∈ (reconcileNormalFromBootstrap w m2 effs).effects, isFinalPatch e = false := by
  simp only [reconcileNormalFromBootstrap]
  split
  · exact outcome_no_finalPatch _ _ _ _
      (append_no_finalPatch h (by intro e he; fin_cases he <;> rfl))
  · split
    · exact outcome_no_finalPatch _ _ _ _ (append_no_finalPatch
        (append_no_finalPatch h
          (ite_no_finalPatch nil_no_finalPatch (by intro e he; fin_cases he <;> rfl)))
        (by intro e he; fin_cases he <;> rfl))
    · split
      all_goals exact outcome_no_finalPatch _ _ _ _ (append_no_finalPatch
        (append_no_finalPatch h
          (ite_no_finalPatch nil_no_finalPatch (by intro e he; fin_cases he <;> rfl)))
        (by intro e he; fin_cases he <;> rfl))

theorem afterBoot_no_finalPatch (w : World) (m : KubevirtMachine) (effs : List Effect)
    (h : ∀ e ∈ effs, isFinalPatch e = false) :
    ∀ e ∈ (reconcileNormalAfterBoot w m effs).effects, isFinalPatch e = false := by
  simp only [reconcileNormalAfterBoot]
  split
  · exact outcome_no_finalPatch _ _ _ _ h
  · split
    · exact fromBootstrap_no_finalPatch _ _ _ h
    · split
      · exact outcome_no_finalPatch _ _ _ _
          (append_no_finalPatch h (by intro e he; fin_cases he <;> rfl))
      · exact fromBootstrap_no_finalPatch _ _ _
          (append_no_finalPatch h (by intro e he; fin_cases he <;> rfl))

theorem reconcileNormal_no_finalPatch (w : World) (cluster : Cluster) (machine : Machine)
    (m : KubevirtMachine) :
    ∀ e ∈ (reconcileNormal w cluster machine m).effects, isFinalPatch e = false := by
  simp only [reconcileNormal]
  have hbs := bootstrapSecret_no_finalPatch w machine
  have h0 : ∀ e ∈ [Effect.checkSshKeysPersisted, Effect.fetchSshKeys] ++
      (reconcileKubevirtBootstrapSecret w machine).2, isFinalPatch e = false :=
    append_no_finalPatch (by intro e he; fin_cases he <;> rfl) hbs
  have h1 : ∀ e ∈ [Effect.checkSshKeysPersisted, Effect.fetchSshKeys] ++
      (reconcileKubevirtBootstrapSecret w machine).2 ++ [Effect.checkVMExists] ++
      (if w.vmExists = true then [] else [Effect.createVM m.name]), isFinalPatch e = false :=
    append_no_finalPatch (append_no_finalPatch h0 (by intro e he; fin_cases he <;> rfl))
      (ite_no_finalPatch nil_no_finalPatch (by intro e he; fin_cases he <;> rfl))
  split
  · exact outcome_no_finalPatch _ _ _ _ nil_no_finalPatch
  · split
    · split
      · exact outcome_no_finalPatch _ _ _ _ nil_no_finalPatch
      · exact outcome_no_finalPatch _ _ _ _ nil_no_finalPatch
    · split
      · exact outcome_no_finalPatch _ _ _ _ (by intro e he; fin_cases he <;> rfl)
      · split
        · exact outcome_no_finalPatch _ _ _ _ (by intro e he; fin_cases he <;> rfl)
        · split
          · exact outcome_no_finalPatch _ _ _ _ h0
          · split
            · exact outcome_no_finalPatch _ _ _ _ h0
            · split
              · exact outcome_no_finalPatch _ _ _ _ h1
              · split
                · exact outcome_no_finalPatch _ _ _ _
                    (append_no_finalPatch h1 (by intro e he; fin_cases he <;> rfl))
                · exact afterBoot_no_finalPatch _ _ _
                    (append_no_finalPatch h1 (by intro e he; fin_cases he <;> rfl))

theorem reconcileDelete_no_finalPatch (w : World) (m : KubevirtMachine) :
    ∀ e ∈ (reconcileDelete w m).effects, isFinalPatch e = false := by
  simp only [reconcileDelete]
  split
  · exact outcome_no_finalPatch _ _ _ _ nil_no_finalPatch
  · split
    · exact outcome_no_finalPatch _ _ _ _ (by intro e he; fin_cases he <;> rfl)
    · exact outcome_no_finalPatch _ _ _ _ (by intro e he; fin_cases he <;> rfl)

theorem reconcileBody_no_finalPatch (w : World) (cluster : Cluster) (machine : Machine)
    (m : KubevirtMachine) :
    ∀ e ∈ (reconcileBody w cluster machine m).effects, isFinalPatch e = false := by
  simp only [reconcileBody]
  split
  · exact outcome_no_finalPatch _ _ _ _ nil_no_finalPatch
  · split
    · exact outcome_no_finalPatch _ _ _ _ nil_no_finalPatch
    · split
      · exact reconcileDelete_no_finalPatch w m
      · exact reconcileNormal_no_finalPatch w cluster machine m

/-! ## The sticky bootstrapped flag is never cleared -/

theorem fromBootstrap_bootstrapped_mono (w : World) (m2 : KubevirtMachine)
    (effs : List Effect) (hb : m2.spec.bootstrapped = true) :
    (reconcileNormalFromBootstrap w m2 effs).machine.spec.bootstrapped = true := by
  simp only [reconcileNormalFromBootstrap, hb]
  split
  · simp_all
  · split
    · simp [spec_setAddresses, spec_markTrue, hb]
    · split <;>
        simp [spec_markTrue, spec_setReady, bootstrapped_setProviderIDField,
          spec_setAddresses, hb]

theorem afterBoot_bootstrapped_mono (w : World) (m : KubevirtMachine) (effs : List Effect)
    (hb : m.spec.bootstrapped = true) :
    (reconcileNormalAfterBoot w m effs).machine.spec.bootstrapped = true := by
  simp only [reconcileNormalAfterBoot]
  split
  · exact hb
  · split
    · exact fromBootstrap_bootstrapped_mono _ _ _ (by simpa [spec_markTrue] using hb)
    · split
      · simpa [spec_markFalse, spec_markTrue] using hb
      · exact fromBootstrap_bootstrapped_mono _ _ _
          (by simpa [spec_markFalse, spec_markTrue] using hb)

theorem reconcileNormal_bootstrapped_mono (w : World) (cluster : Cluster)
    (machine : Machine) (m : KubevirtMachine) (hb : m.spec.bootstrapped = true) :
    (reconcileNormal w cluster machine m).machine.spec.bootstrapped = true := by
  simp only [reconcileNormal]
  split
  · simpa [spec_markTrue, spec_setReady] using hb
  · split
    · split <;> simpa [spec_markFalse] using hb
    · split
      · exact hb
      · split
        · exact hb
        · split
          · simpa [spec_markFalse] using hb
          · split
            · exact hb
            · split
              · exact hb
              · split
                · exact hb
                · exact afterBoot_bootstrapped_mono _ _ _ hb

theorem reconcileDelete_bootstrapped_mono (w : World) (m : KubevirtMachine)
    (hb : m.spec.bootstrapped = true) :
    (reconcileDelete w m).machine.spec.bootstrapped = true := by
  simp only [reconcileDelete]
  split
  · exact hb
  · split
    · simpa [spec_markFalse] using hb
    · simpa [spec_removeFinalizer, spec_markFalse] using hb

theorem reconcileBody_bootstrapped_mono (w : World) (cluster : Cluster) (machine : Machine)
    (m : KubevirtMachine) (hb : m.spec.bootstrapped = true) :
    (reconcileBody w cluster machine m).machine.spec.bootstrapped = true := by
  simp only [reconcileBody]
  split
  · simpa [spec_addFinalizer] using hb
  · split
    · simpa [spec_markFalse] using hb
    · split
      · exact reconcileDelete_bootstrapped_mono w m hb
      · exact reconcileNormal_bootstrapped_mono w cluster machine m hb

/-! ## Claim theorems -/

/-- C7: the bootstrap secret synthesizer is idempotent — when the derived
`<dataSecretName>-userdata` secret already exists, it returns success, its
only external call is the existence read, and it performs no API write. -/
theorem bootstrapSecret_short_circuits_when_derived_exists
    (w : World) (machine : Machine) (n : String) (s : Secret)
    (hds : machine.dataSecretName = some n)
    (hex : w.getDerivedBootstrapSecret = .ok s) :
    (reconcileKubevirtBootstrapSecret w machine).1 = none ∧
    (reconcileKubevirtBootstrapSecret w machine).2 = [.readSecret (n ++ "-userdata")] ∧
    ∀ e ∈ (reconcileKubevirtBootstrapSecret w machine).2, isWriteSecret e = false := by
  unfold reconcileKubevirtBootstrapSecret
  rw [hds, hex]
  refine ⟨rfl, rfl, ?_⟩
  intro e he
  rw [List.mem_singleton] at he
  subst he
  rfl

/-- Witness for C7 at a concrete world where the derived secret exists. -/
theorem bootstrapSecret_short_circuits_witness :
    (reconcileKubevirtBootstrapSecret worldDerivedExists machine0).1 = none ∧
    (reconcileKubevirtBootstrapSecret worldDerivedExists machine0).2 =
      [.readSecret ("bs" ++ "-userdata")] ∧
    ∀ e ∈ (reconcileKubevirtBootstrapSecret worldDerivedExists machine0).2,
      isWriteSecret e = false :=
  bootstrapSecret_short_circuits_when_derived_exists worldDerivedExists machine0 "bs"
    secretDerived rfl rfl

/-- C9: the cluster-to-machines index handler panics exactly when its object
argument is not a KubevirtCluster; on every KubevirtCluster argument it
returns normally (possibly with an empty result). -/
theorem index_panics_only_on_wrong_kind (w : IndexWorld) :
    (∀ t, KubevirtClusterToKubevirtMachines w (.otherObject t) =
      .panicked ("Expected a KubevirtCluster but got a " ++ t)) ∧
    (∀ c, ∃ rs, KubevirtClusterToKubevirtMachines w (.isKubevirtCluster c) = .returned rs) := by
  constructor
  · intro t
    rfl
  · intro c
    unfold KubevirtClusterToKubevirtMachines
    cases hoc : w.getOwnerCluster with
    | error e => exact ⟨[], rfl⟩
    | ok oc =>
      cases oc with
      | none => exact ⟨[], rfl⟩
      | some cl =>
        cases hlm : w.listMachines with
        | error e => exact ⟨[], rfl⟩
        | ok ms => exact ⟨_, rfl⟩

/-- C10: every error fetching the KubevirtCluster — NotFound or not — makes
Reconcile return an empty result with nil error; no such fetch error is
propagated. -/
theorem kubevirtCluster_fetch_error_is_silent
    (w : World) (m : KubevirtMachine) (machine : Machine) (cluster : Cluster) (e : GetErr)
    (hm : w.getKubevirtMachine = .ok m)
    (ho : w.getOwnerMachine = .ok (some machine))
    (hc : w.getCluster = .ok (some cluster))
    (hk : w.getKubevirtCluster = .error e) :
    (Reconcile w).result = emptyResult ∧ (Reconcile w).error = none ∧
    (Reconcile w).machine = some m := by
  unfold Reconcile
  rw [hm, ho, hc, hk]
  exact ⟨rfl, rfl, rfl⟩

/-- Witness for C10 at a concrete world with a non-NotFound fetch error. -/
theorem kubevirtCluster_fetch_error_is_silent_witness :
    (Reconcile worldKvcErr).result = emptyResult ∧ (Reconcile worldKvcErr).error = none ∧
    (Reconcile worldKvcErr).machine = some kvmFin :=
  kubevirtCluster_fetch_error_is_silent worldKvcErr kvmFin machine0 cluster0 (.other "boom")
    rfl rfl rfl rfl

/-- C2: on the delete path the Deleting condition is marked and persisted by
an immediate patch before the finalizer is removed; a failed patch returns an
error with the finalizer still present; finalizer removal implies a persisted
patch whose snapshot carries `VMProvisioned=False/Deleting` and still carries
the finalizer. -/
theorem delete_persists_deleting_before_finalizer_removal
    (w : World) (m : KubevirtMachine)
    (hf : containsFinalizer m machineFinalizer = true) :
    (w.deletePatchOk = false →
      (reconcileDelete w m).error.isSome = true ∧
      containsFinalizer (reconcileDelete w m).machine machineFinalizer = true) ∧
    (containsFinalizer (reconcileDelete w m).machine machineFinalizer = false →
      (reconcileDelete w m).effects =
        [.patchMachine (markFalse m .vmProvisioned deletingReason .info "") true] ∧
      getCondition (markFalse m .vmProvisioned deletingReason .info "") .vmProvisioned =
        some { condType := .vmProvisioned, status := .isFalse, reason := deletingReason,
               severity := .info, message := "" } ∧
      containsFinalizer (markFalse m .vmProvisioned deletingReason .info "") machineFinalizer
        = true) ∧
    (w.deletePatchHelperOk = true → w.deletePatchOk = true →
      (reconcileDelete w m).machine =
        removeFinalizer (markFalse m .vmProvisioned deletingReason .info "") machineFinalizer ∧
      (reconcileDelete w m).error = none) := by
  unfold reconcileDelete
  cases hph : w.deletePatchHelperOk with
  | false => simp [hph, hf]
  | true =>
    cases hpo : w.deletePatchOk with
    | false => simp [hpo, hf, containsFinalizer_markFalse]
    | true =>
      simp [hpo, hf, containsFinalizer_markFalse, containsFinalizer_removeFinalizer,
        getCondition_markFalse]

/-- Witness for C2 at a concrete healthy world and finalized machine. -/
theorem delete_persists_deleting_witness :
    (world0.deletePatchOk = false →
      (reconcileDelete world0 kvmFin).error.isSome = true ∧
      containsFinalizer (reconcileDelete world0 kvmFin).machine machineFinalizer = true) ∧
    (containsFinalizer (reconcileDelete world0 kvmFin).machine machineFinalizer = false →
      (reconcileDelete world0 kvmFin).effects =
        [.patchMachine (markFalse kvmFin .vmProvisioned deletingReason .info "") true] ∧
      getCondition (markFalse kvmFin .vmProvisioned deletingReason .info "") .vmProvisioned =
        some { condType := .vmProvisioned, status := .isFalse, reason := deletingReason,
               severity := .info, message := "" } ∧
      containsFinalizer (markFalse kvmFin .vmProvisioned deletingReason .info "")
        machineFinalizer = true) ∧
    (world0.deletePatchHelperOk = true → world0.deletePatchOk = true →
      (reconcileDelete world0 kvmFin).machine =
        removeFinalizer (markFalse kvmFin .vmProvisioned deletingReason .info "")
          machineFinalizer ∧
      (reconcileDelete world0 kvmFin).error = none) :=
  delete_persists_deleting_before_finalizer_removal world0 kvmFin (by decide)

/-- C4: on the normal path with no bootstrap-data reference, a
non-control-plane machine of a cluster whose control plane is not
initialized gets `VMProvisioned=False/WaitingForControlPlaneAvailable` and
an empty result with nil error; otherwise
`VMProvisioned=False/WaitingForBootstrapData` and an empty result with nil
error. -/
theorem no_bootstrap_data_waits
    (w : World) (cluster : Cluster) (machine : Machine) (m : KubevirtMachine)
    (hpid : m.spec.providerID = none)
    (hds : machine.dataSecretName = none) :
    (machine.isControlPlane = false → cluster.controlPlaneInitialized = false →
      reconcileNormal w cluster machine m =
        { result := emptyResult, error := none,
          machine := markFalse m .vmProvisioned waitingForControlPlaneAvailableReason .info "",
          effects := [] }) ∧
    (machine.isControlPlane = true ∨ cluster.controlPlaneInitialized = true →
      reconcileNormal w cluster machine m =
        { result := emptyResult, error := none,
          machine := markFalse m .vmProvisioned waitingForBootstrapDataReason .info "",
          effects := [] }) := by
  constructor
  · intro h1 h2
    simp [reconcileNormal, hpid, hds, h1, h2]
  · intro h
    rcases h with h | h
    · simp [reconcileNormal, hpid, hds, h]
    · simp [reconcileNormal, hpid, hds, h]

/-- Witness for C4 at a concrete non-control-plane machine with no
bootstrap data and an uninitialized control plane. -/
theorem no_bootstrap_data_waits_witness :
    reconcileNormal world0 cluster0 machineNoData kvmFin =
      { result := emptyResult, error := none,
        machine := markFalse kvmFin .vmProvisioned waitingForControlPlaneAvailableReason
          .info "",
        effects := [] } :=
  (no_bootstrap_data_waits world0 cluster0 machineNoData kvmFin rfl rfl).1 rfl rfl

/-- C1: when the finalizer is absent at entry, Reconcile adds it, returns an
empty result with nil error (the deferred patch succeeding), and performs no
VM creation call in that invocation. -/
theorem finalizer_added_before_side_effects
    (w : World) (m : KubevirtMachine) (machine : Machine) (cluster : Cluster)
    (kvc : KubevirtCluster)
    (hm : w.getKubevirtMachine = .ok m)
    (ho : w.getOwnerMachine = .ok (some machine))
    (hc : w.getCluster = .ok (some cluster))
    (hk : w.getKubevirtCluster = .ok kvc)
    (hph : w.newPatchHelperOk = true)
    (hdp : w.deferredPatchOk = true)
    (hf : containsFinalizer m machineFinalizer = false) :
    (Reconcile w).result = emptyResult ∧
    (Reconcile w).error = none ∧
    (Reconcile w).machine = some (addFinalizer m machineFinalizer) ∧
    containsFinalizer (addFinalizer m machineFinalizer) machineFinalizer = true ∧
    ∀ e ∈ (Reconcile w).effects, isCreateVM e = false := by
  unfold Reconcile
  rw [hm, ho, hc, hk]
  simp only [hph, Bool.not_true, Bool.false_eq_true, if_false]
  refine ⟨?_, ?_, ?_, containsFinalizer_addFinalizer m machineFinalizer, ?_⟩
  · simp [reconcileBody, hf]
  · simp [reconcileBody, hf, hdp, deferredErr]
  · simp [reconcileBody, hf]
  · intro e he
    simp only [reconcileBody, hf, Bool.not_false, if_true] at he
    simp only [List.mem_append, List.mem_cons, List.mem_singleton, List.not_mem_nil,
      or_false, false_or] at he
    casesm* _ ∨ _ <;> subst_vars <;> rfl

/-- Witness for C1 at a concrete world whose machine has no finalizer. -/
theorem finalizer_added_before_side_effects_witness :
    (Reconcile worldNoFinalizer).result = emptyResult ∧
    (Reconcile worldNoFinalizer).error = none ∧
    (Reconcile worldNoFinalizer).machine = some (addFinalizer kvm0 machineFinalizer) ∧
    containsFinalizer (addFinalizer kvm0 machineFinalizer) machineFinalizer = true ∧
    ∀ e ∈ (Reconcile worldNoFinalizer).effects, isCreateVM e = false :=
  finalizer_added_before_side_effects worldNoFinalizer kvm0 machine0 cluster0 kvc0
    rfl rfl rfl rfl rfl rfl rfl

/-- C3: every invocation reaching the deferred-patch installation emits
exactly one deferred status patch, as its last external effect, carrying the
final machine state; a body error is returned unchanged, and a deferred
patch failure becomes the returned error only when the body produced none. -/
theorem deferred_patch_exactly_once_first_error_wins
    (w : World) (m : KubevirtMachine) (machine : Machine) (cluster : Cluster)
    (kvc : KubevirtCluster)
    (hm : w.getKubevirtMachine = .ok m)
    (ho : w.getOwnerMachine = .ok (some machine))
    (hc : w.getCluster = .ok (some cluster))
    (hk : w.getKubevirtCluster = .ok kvc)
    (hph : w.newPatchHelperOk = true) :
    (Reconcile w).effects.filter (fun e => isFinalPatch e) =
      [Effect.finalPatch (reconcileBody w cluster machine m).machine w.deferredPatchOk] ∧
    (Reconcile w).effects.getLast? =
      some (Effect.finalPatch (reconcileBody w cluster machine m).machine w.deferredPatchOk) ∧
    (Reconcile w).machine = some (reconcileBody w cluster machine m).machine ∧
    (Reconcile w).result = (reconcileBody w cluster machine m).result ∧
    (∀ e, (reconcileBody w cluster machine m).error = some e → (Reconcile w).error = some e) ∧
    ((reconcileBody w cluster machine m).error = none →
      (Reconcile w).error =
        (if w.deferredPatchOk = true then none else some .deferredPatchErr)) := by
  have hR : Reconcile w =
      { result := (reconcileBody w cluster machine m).result,
        error := deferredErr w.deferredPatchOk (reconcileBody w cluster machine m).error,
        machine := some (reconcileBody w cluster machine m).machine,
        effects := [Effect.readKubevirtMachine, Effect.readOwnerMachine, Effect.readCluster,
          Effect.readKubevirtCluster] ++ (reconcileBody w cluster machine m).effects ++
          [Effect.finalPatch (reconcileBody w cluster machine m).machine
            w.deferredPatchOk] } := by
    unfold Reconcile
    rw [hm, ho, hc, hk]
    simp [hph]
  have hfil : List.filter (fun e => isFinalPatch e)
      (reconcileBody w cluster machine m).effects = [] := by
    rw [List.filter_eq_nil_iff]
    intro e he
    simp only [reconcileBody_no_finalPatch w cluster machine m e he, Bool.false_eq_true,
      not_false_eq_true]
  rw [hR]
  refine ⟨?_, ?_, rfl, rfl, ?_, ?_⟩
  · simp [List.filter_append, hfil, isFinalPatch]
    intro a ha
    exact reconcileBody_no_finalPatch w cluster machine m a ha
  · rw [List.getLast?_append_of_ne_nil _ (by simp)]
    rfl
  · intro e he
    simp [deferredErr, he]
  · intro he
    simp [deferredErr, he]

/-- Witness for C3 at the concrete healthy world. -/
theorem deferred_patch_exactly_once_witness :
    (Reconcile world0).effects.filter (fun e => isFinalPatch e) =
      [Effect.finalPatch (reconcileBody world0 cluster0 machine0 kvmFin).machine
        world0.deferredPatchOk] ∧
    (Reconcile world0).effects.getLast? =
      some (Effect.finalPatch (reconcileBody world0 cluster0 machine0 kvmFin).machine
        world0.deferredPatchOk) ∧
    (Reconcile world0).machine = some (reconcileBody world0 cluster0 machine0 kvmFin).machine ∧
    (Reconcile world0).result = (reconcileBody world0 cluster0 machine0 kvmFin).result ∧
    (∀ e, (reconcileBody world0 cluster0 machine0 kvmFin).error = some e →
      (Reconcile world0).error = some e) ∧
    ((reconcileBody world0 cluster0 machine0 kvmFin).error = none →
      (Reconcile world0).error =
        (if world0.deferredPatchOk = true then none else some .deferredPatchErr)) :=
  deferred_patch_exactly_once_first_error_wins world0 kvmFin machine0 cluster0 kvc0
    rfl rfl rfl rfl rfl

/-- C5: when the cluster SSH key pair is not yet persisted, the invocation
requeues after exactly 10 seconds with nil error, leaves the machine (hence
every condition) unchanged, and performs no VM creation call. -/
theorem ssh_keys_not_persisted_requeues
    (w : World) (m : KubevirtMachine) (machine : Machine) (cluster : Cluster)
    (kvc : KubevirtCluster) (n : String)
    (hm : w.getKubevirtMachine = .ok m)
    (ho : w.getOwnerMachine = .ok (some machine))
    (hc : w.getCluster = .ok (some cluster))
    (hk : w.getKubevirtCluster = .ok kvc)
    (hph : w.newPatchHelperOk = true)
    (hdp : w.deferredPatchOk = true)
    (hf : containsFinalizer m machineFinalizer = true)
    (hinfra : cluster.infrastructureReady = true)
    (hdel : m.deletionTimestamp = none)
    (hpid : m.spec.providerID = none)
    (hds : machine.dataSecretName = some n)
    (hssh : w.sshKeysPersisted = false) :
    (Reconcile w).result = { requeueAfter := 10 } ∧
    (Reconcile w).error = none ∧
    (Reconcile w).machine = some m ∧
    ∀ e ∈ (Reconcile w).effects, isCreateVM e = false := by
  unfold Reconcile
  rw [hm, ho, hc, hk]
  simp only [hph, Bool.not_true, Bool.false_eq_true, if_false]
  have hbody : reconcileBody w cluster machine m =
      { result := { requeueAfter := 10 }, error := none, machine := m,
        effects := [.checkSshKeysPersisted] } := by
    simp [reconcileBody, reconcileNormal, hf, hinfra, hdel, hpid, hds, hssh]
  rw [hbody]
  refine ⟨rfl, by simp [deferredErr, hdp], rfl, ?_⟩
  intro e he
  simp only [List.mem_append, List.mem_cons, List.mem_singleton, List.not_mem_nil,
    or_false, false_or] at he
  casesm* _ ∨ _ <;> subst_vars <;> rfl

/-- Witness for C5 at a concrete world whose SSH keys are not persisted. -/
theorem ssh_keys_not_persisted_requeues_witness :
    (Reconcile worldNoSshKeys).result = { requeueAfter := 10 } ∧
    (Reconcile worldNoSshKeys).error = none ∧
    (Reconcile worldNoSshKeys).machine = some kvmFin ∧
    ∀ e ∈ (Reconcile worldNoSshKeys).effects, isCreateVM e = false :=
  ssh_keys_not_persisted_requeues worldNoSshKeys kvmFin machine0 cluster0 kvc0 "bs"
    rfl rfl rfl rfl rfl rfl (by decide) rfl rfl rfl rfl rfl

/-- C6: the sticky bootstrapped flag is monotonic — if it is true on the
fetched machine at entry, it is true on the machine at return along every
path of Reconcile, reconcileNormal and reconcileDelete. -/
theorem bootstrapped_is_monotonic
    (w : World) (m : KubevirtMachine)
    (hm : w.getKubevirtMachine = .ok m)
    (hb : m.spec.bootstrapped = true) :
    ∀ m2, (Reconcile w).machine = some m2 → m2.spec.bootstrapped = true := by
  intro m2 h2
  unfold Reconcile at h2
  rw [hm] at h2
  rcases ho : w.getOwnerMachine with e | om
  all_goals rw [ho] at h2
  · simp only [Option.some.injEq] at h2; subst h2; exact hb
  rcases om with _ | machine
  · simp only [Option.some.injEq] at h2; subst h2; exact hb
  rcases hc : w.getCluster with e | oc
  all_goals rw [hc] at h2
  · simp only [Option.some.injEq] at h2; subst h2; exact hb
  rcases oc with _ | cluster
  · simp only [Option.some.injEq] at h2; subst h2; exact hb
  rcases hk : w.getKubevirtCluster with e | kvc
  all_goals rw [hk] at h2
  · simp only [Option.some.injEq] at h2; subst h2; exact hb
  by_cases hph : w.newPatchHelperOk = true
  · simp only [hph, Bool.not_true, Bool.false_eq_true, if_false, Option.some.injEq] at h2
    subst h2
    exact reconcileBody_bootstrapped_mono w cluster machine m hb
  · simp only [eq_false_of_ne_true hph, Bool.not_false, if_true, Option.some.injEq] at h2
    subst h2
    exact hb

/-- Witness for C6: run a full successful reconciliation on an already
bootstrapped machine and read the flag off the returned machine. -/
theorem bootstrapped_is_monotonic_witness :
    ((Reconcile worldBootstrapped).machine.getD kvm0).spec.bootstrapped = true :=
  bootstrapped_is_monotonic worldBootstrapped kvmBootstrapped rfl rfl
    ((Reconcile worldBootstrapped).machine.getD kvm0) rfl

/-- C8 counterexample: with `providerID` set and every entry fetch
succeeding, the invocation's effect trace contains an external read (the
owner-Machine fetch) that is not the terminal status patch, so the claim
that it performs zero external reads or writes other than the terminal
status patch is false as stated. -/
theorem early_exit_frame_counterexample :
    Effect.readOwnerMachine ∈ (Reconcile worldProvisioned).effects ∧
    isFinalPatch Effect.readOwnerMachine = false ∧
    ¬ (∀ e ∈ (Reconcile worldProvisioned).effects, isFinalPatch e = true) := by
  refine ⟨?_, rfl, ?_⟩
  · decide
  · intro h
    exact absurd (h Effect.readOwnerMachine (by decide)) (by decide)

/-- C8 (amended): with `providerID` already set, the invocation's only
external calls are the four entry-sequence fetches and the terminal status
patch — the normal path itself performs none — and it forces `ready=true`
and `VMProvisioned=True`, returning an empty result with nil error. -/
theorem early_exit_writes_only_terminal_patch
    (w : World) (m : KubevirtMachine) (machine : Machine) (cluster : Cluster)
    (kvc : KubevirtCluster)
    (hm : w.getKubevirtMachine = .ok m)
    (ho : w.getOwnerMachine = .ok (some machine))
    (hc : w.getCluster = .ok (some cluster))
    (hk : w.getKubevirtCluster = .ok kvc)
    (hph : w.newPatchHelperOk = true)
    (hdp : w.deferredPatchOk = true)
    (hf : containsFinalizer m machineFinalizer = true)
    (hinfra : cluster.infrastructureReady = true)
    (hdel : m.deletionTimestamp = none)
    (hpid : m.spec.providerID.isSome = true) :
    (Reconcile w).effects = [.readKubevirtMachine, .readOwnerMachine, .readCluster,
      .readKubevirtCluster, .finalPatch (markTrue (setReady m true) .vmProvisioned) true] ∧
    (reconcileNormal w cluster machine m).effects = [] ∧
    (Reconcile w).machine = some (markTrue (setReady m true) .vmProvisioned) ∧
    (Reconcile w).result = emptyResult ∧
    (Reconcile w).error = none := by
  have hbody : reconcileBody w cluster machine m =
      { result := emptyResult, error := none,
        machine := markTrue (setReady m true) .vmProvisioned, effects := [] } := by
    simp [reconcileBody, reconcileNormal, hf, hinfra, hdel, hpid]
  unfold Reconcile
  rw [hm, ho, hc, hk]
  simp [hph, hbody, hdp, deferredErr, reconcileNormal, hpid]

/-- Witness for the amended C8 at the concrete provisioned world. -/
theorem early_exit_writes_only_terminal_patch_witness :
    (Reconcile worldProvisioned).effects = [.readKubevirtMachine, .readOwnerMachine,
      .readCluster, .readKubevirtCluster,
      .finalPatch (markTrue (setReady kvmProvisioned true) .vmProvisioned) true] ∧
    (reconcileNormal worldProvisioned cluster0 machine0 kvmProvisioned).effects = [] ∧
    (Reconcile worldProvisioned).machine =
      some (markTrue (setReady kvmProvisioned true) .vmProvisioned) ∧
    (Reconcile worldProvisioned).result = emptyResult ∧
    (Reconcile worldProvisioned).error = none :=
  early_exit_writes_only_terminal_patch worldProvisioned kvmProvisioned machine0 cluster0
    kvc0 rfl rfl rfl rfl rfl rfl (by decide) rfl rfl rfl

end CAPK
